import Mathlib

/-!
Verification development for a time-series analysis tool (`app.py`):
a filter → aggregate → statistics pipeline over yearly records.

The embedding models the program over exact rationals (`ℚ`) in place of
IEEE floats, and models Python strings as Lean `String`s manipulated
through structural character-list helpers (mirroring `str.lower`,
`str.strip`, `str.startswith` and the substring test used by
`Series.str.contains` on a literal pattern).
-/

namespace App

/-! ## String helpers (models of the Python string operations used) -/

/-- Model of `str.lower` (ASCII): lower-case every character. -/
def pyLower (s : String) : String := ⟨s.data.map Char.toLower⟩

/-- Model of `str.strip`: drop whitespace from both ends. -/
def pyStrip (s : String) : String :=
  ⟨((s.data.dropWhile Char.isWhitespace).reverse.dropWhile Char.isWhitespace).reverse⟩

/-- Whether `pat` occurs at the start of `l`. -/
def listStarts : List Char → List Char → Bool
  | _, [] => true
  | [], _ :: _ => false
  | a :: as, b :: bs => a == b && listStarts as bs

/-- Whether `pat` occurs as a contiguous sublist of `l`. -/
def listHasSub : List Char → List Char → Bool
  | [], pat => pat.isEmpty
  | a :: as, pat => listStarts (a :: as) pat || listHasSub as pat

/-- Model of Python `pat in s` / `Series.str.contains(pat)` for a literal
pattern with no regex metacharacters: substring test. -/
def strContains (s pat : String) : Bool := listHasSub s.data pat.data

/-- Model of `str.startswith`. -/
def strStarts (s pat : String) : Bool := listStarts s.data pat.data

/-! ## Record model -/

/-- One validated input row: `Sex` label, 4-digit year, numeric value.
Values are modelled as exact rationals in place of floats. -/
structure Record where
  category : String
  year : ℤ
  value : ℚ
deriving DecidableEq, Repr

/-! ## Dataset loader (`load_dataset`) -/

/-- One raw CSV row as seen before coercion: the `Time`, `Value` and
`Sex` columns as text. -/
structure RawRow where
  Time : String
  Value : String
  Sex : String
deriving DecidableEq, Repr

/-- Numeric value of a list of decimal digit characters. -/
def digitsToNat (l : List Char) : ℕ :=
  l.foldl (fun acc c => acc * 10 + (c.toNat - 48)) 0

/-- Model of `pd.to_datetime(…, format='%Y', errors='coerce')` followed by
`.dt.year`: the text must be exactly a 4-digit year token, otherwise the
coercion yields a missing value (`none`). -/
def parseYear4 (s : String) : Option ℤ :=
  let l := s.data
  if l.length = 4 ∧ l.all Char.isDigit then some (digitsToNat l) else none

/-- Model of `pd.to_numeric(…, errors='coerce')` on decimal literals:
optional sign, a nonempty integer part, and an optional fractional part;
anything else yields a missing value (`none`). -/
def parseNumber (s : String) : Option ℚ :=
  let l := s.data
  let sign : ℚ := if listStarts l ['-'] then -1 else 1
  let l1 := if listStarts l ['-'] then l.tail else l
  let intPart := l1.takeWhile Char.isDigit
  let rest := l1.dropWhile Char.isDigit
  if intPart.isEmpty then none
  else
    match rest with
    | [] => some (sign * digitsToNat intPart)
    | '.' :: frac =>
      if frac.all Char.isDigit ∧ ¬frac.isEmpty then
        some (sign * ((digitsToNat intPart : ℚ) +
          (digitsToNat frac : ℚ) / (10 : ℚ) ^ frac.length))
      else none
    | _ => none

/-- Loader `load_dataset`: coerce `Time` to a year and `Value` to a number,
and drop every row in which either coercion failed (`dropna`). -/
def load_dataset (rows : List RawRow) : List Record :=
  rows.filterMap fun r =>
    match parseYear4 r.Time, parseNumber r.Value with
    | some y, some v => some ⟨r.Sex, y, v⟩
    | _, _ => none

/-! ## Category filter (`filter_gender`) -/

/-- Filter `filter_gender`: select records by a free-form gender expression.
Mirrors the source's rule cascade: normalize the expression by
strip + lower; `"all"`/`""` is the identity; `male`-ish prefixes select by
substring `"males"` unless the expression is exactly `"male"`/`"m"`
(then exact equality with `"males"`); `female`-ish prefixes select exact
`"females"`; otherwise exact match against the lowered category. -/
def filter_gender (df : List Record) (gender : String) : List Record :=
  let g := pyLower (pyStrip gender)
  if g = "all" ∨ g = "" then df
  else if strStarts g "males" ∨ strStarts g "male" ∨ g = "m" then
    if g = "male" ∨ g = "m" then
      df.filter (fun r => pyLower r.category == "males")
    else
      df.filter (fun r => strContains (pyLower r.category) "males")
  else if strStarts g "female" ∨ strStarts g "fem" then
    df.filter (fun r => pyLower r.category == "females")
  else
    df.filter (fun r => pyLower r.category == g)

/-- The per-record match test of `filter_gender`, phrased as a function of
the lower-cased category only (the dataset side is always lowered before
any comparison, and the equality rules compare against the lower-cased
literals `"males"` / `"females"`). `expr` is the normalized expression. -/
def genderMatches (catLower expr : String) : Bool :=
  if expr = "all" ∨ expr = "" then true
  else if strStarts expr "males" ∨ strStarts expr "male" ∨ expr = "m" then
    if expr = "male" ∨ expr = "m" then catLower == "males"
    else strContains catLower "males"
  else if strStarts expr "female" ∨ strStarts expr "fem" then
    catLower == "females"
  else
    catLower == expr

/-! ## Year-range filter (`filter_year_range`) -/

/-- Filter `filter_year_range`: keep records with
`start_year <= year <= end_year` (both bounds inclusive). -/
def filter_year_range (df : List Record) (start_year end_year : ℤ) :
    List Record :=
  df.filter (fun r => decide (start_year ≤ r.year) && decide (r.year ≤ end_year))

/-! ## Yearly aggregator (`aggregate_by_year`) -/

/-- Aggregator `aggregate_by_year`: one `(year, total)` pair per distinct year present,
total = sum of the `value` field over the records of that year, sorted
ascending by year (the semantics of `groupby(year).sum()` + sort). -/
def aggregate_by_year (records : List Record) : List (ℤ × ℚ) :=
  (List.insertionSort (· ≤ ·) (records.map Record.year).dedup).map
    fun y => (y, ((records.filter (fun r => r.year == y)).map Record.value).sum)

/-! ## Statistics engine (`calculate_statistics`) -/

/-- A value in the statistics result mapping: a number, Python `None`,
`NaN`, the (irrational) square root of a rational, or a message string. -/
inductive StatValue where
  | num (q : ℚ)
  | nullv
  | nan
  | sqrtNum (q : ℚ)
  | str (s : String)
deriving DecidableEq, Repr

/-- Arithmetic mean (`Series.mean`). -/
def listMean (l : List ℚ) : ℚ := l.sum / l.length

/-- Maximum of a series (`Series.max`), 0 on the empty list (unreached:
the engine short-circuits on empty input). -/
def listMax : List ℚ → ℚ
  | [] => 0
  | x :: xs => xs.foldl max x

/-- Minimum of a series (`Series.min`), 0 on the empty list (unreached). -/
def listMin : List ℚ → ℚ
  | [] => 0
  | x :: xs => xs.foldl min x

/-- Median (`Series.median`): middle of the sorted values, or the average
of the two middle values for an even count. -/
def listMedian (l : List ℚ) : ℚ :=
  let s := List.insertionSort (· ≤ ·) l
  let n := s.length
  if n % 2 = 1 then s.getD (n / 2) 0
  else (s.getD (n / 2 - 1) 0 + s.getD (n / 2) 0) / 2

/-- Bessel-corrected sample variance; `Series.std(ddof=1)` is its square
root. -/
def sampleVar (l : List ℚ) : ℚ :=
  ((l.map (fun x => (x - listMean l) ^ 2)).sum) / ((l.length : ℚ) - 1)

/-- Model of `np.polyfit(xs, ys, 1)`: the ordinary least-squares degree-1 fit,
as the closed-form `(slope, intercept)` solution of the normal
equations. -/
def polyfit1 (xs ys : List ℚ) : ℚ × ℚ :=
  let n : ℚ := xs.length
  let sx := xs.sum
  let sy := ys.sum
  let sxy := ((xs.zip ys).map (fun p => p.1 * p.2)).sum
  let sxx := (xs.map (fun x => x * x)).sum
  let slope := (n * sxy - sx * sy) / (n * sxx - sx * sx)
  (slope, (sy - slope * sx) / n)

/-- The error message returned on an empty aggregated series. -/
def noDataMsg : String := "No data available after filtering/aggregation."

/-- The note accompanying a null percent change. -/
def pcZeroNote : String := "First value is 0 — percent change undefined."

/-- The marker emitted when trend is requested with fewer than 2 points. -/
def trendMsg : String := "Not enough points to compute trend."

/-- Engine `calculate_statistics`: compute the requested statistics over the
aggregated series. An empty series short-circuits to a single
`"Error"` entry. The result models the Python dict as an ordered
association list, entries in the source's insertion order. -/
def calculate_statistics (dfYearly : List (ℤ × ℚ)) (stats : List String) :
    List (String × StatValue) :=
  let series := dfYearly.map Prod.snd
  let years := dfYearly.map Prod.fst
  if series.isEmpty then [("Error", StatValue.str noDataMsg)]
  else
    (if "average" ∈ stats then [("Average", StatValue.num (listMean series))] else []) ++
    (if "max" ∈ stats then [("Max", StatValue.num (listMax series))] else []) ++
    (if "min" ∈ stats then [("Min", StatValue.num (listMin series))] else []) ++
    (if "median" ∈ stats then [("Median", StatValue.num (listMedian series))] else []) ++
    (if "stddev" ∈ stats then
      [("Std Dev",
        if 2 ≤ series.length then StatValue.sqrtNum (sampleVar series)
        else StatValue.nan)]
     else []) ++
    (if "percent change" ∈ stats then
      (if series.headD 0 = 0 then
        [("Percent Change (%)", StatValue.nullv),
         ("Percent Change Note", StatValue.str pcZeroNote)]
       else
        [("Percent Change (%)",
          StatValue.num ((series.getLastD 0 - series.headD 0) /
            |series.headD 0| * 100))])
     else []) ++
    (if "trend" ∈ stats then
      (if 2 ≤ years.length then
        [("Trend Slope (value per year)",
          StatValue.num (polyfit1 (years.map Int.cast) series).1),
         ("Trend Intercept",
          StatValue.num (polyfit1 (years.map Int.cast) series).2)]
       else [("Trend", StatValue.str trendMsg)])
     else [])

/-- The statistic names `calculate_statistics` recognizes. -/
def isRecognized (s : String) : Bool :=
  s ∈ ["average", "max", "min", "median", "stddev", "percent change", "trend"]

/-! ## Moving-average overlay (`plot_all_charts`) -/

/-- The 3-year trailing moving average computed for the chart overlay:
`pd.Series(values).rolling(window=3, min_periods=1).mean()`. Entry `i`
averages the window of the last `min 3 (i+1)` values ending at `i`. -/
def rollingMean3 (values : List ℚ) : List ℚ :=
  (List.range values.length).map fun i =>
    let w := (values.take (i + 1)).drop (i - 2)
    w.sum / (w.length : ℚ)

/-! ## Theorems -/

/-- Claim C6: the year-range filter returns exactly the records whose year
satisfies `start_year <= year <= end_year` (both bounds inclusive), and when
`start_year > end_year` it returns the empty subset without error. -/
theorem filter_year_range_correct (df : List Record) (s e : ℤ) :
    (∀ r : Record, r ∈ filter_year_range df s e ↔
      r ∈ df ∧ s ≤ r.year ∧ r.year ≤ e) ∧
    (e < s → filter_year_range df s e = []) := by
  constructor
  · intro r
    simp [filter_year_range, List.mem_filter]
  · intro h
    rw [filter_year_range, List.filter_eq_nil_iff]
    intro r _
    simp only [Bool.and_eq_true, decide_eq_true_eq, not_and]
    omega

/-- Witness for C6 at a concrete record set with inverted bounds. -/
theorem filter_year_range_correct_witness :
    ((2:ℤ) < 5) ∧
    filter_year_range [(⟨"Males", 2000, 10⟩ : Record)] 5 2 = [] :=
  ⟨by decide, (filter_year_range_correct [⟨"Males", 2000, 10⟩] 5 2).2 (by decide)⟩

/-- Claim C2: on an empty series the statistics engine returns a mapping with
exactly one key, `"Error"`, bound to a non-empty string, and no statistic
keys — regardless of which statistics were requested. -/
theorem calculate_statistics_empty (stats : List String) :
    calculate_statistics [] stats = [("Error", StatValue.str noDataMsg)] ∧
    noDataMsg ≠ "" :=
  ⟨rfl, by decide⟩

/-- Claim C8: a raw row enters the pipeline iff its year field parses as a
4-digit year token and its value field parses as a number; a row failing
either coercion is silently dropped (the load of the remaining rows is
unchanged), and a row passing both is admitted as a record. -/
theorem load_dataset_correct (row : RawRow) (rows : List RawRow) :
    (∀ rec : Record, rec ∈ load_dataset rows ↔
      ∃ raw ∈ rows, parseYear4 raw.Time = some rec.year ∧
        parseNumber raw.Value = some rec.value ∧ rec.category = raw.Sex) ∧
    (parseYear4 row.Time = none ∨ parseNumber row.Value = none →
      load_dataset (row :: rows) = load_dataset rows) ∧
    (∀ (y : ℤ) (v : ℚ), parseYear4 row.Time = some y →
      parseNumber row.Value = some v →
      load_dataset (row :: rows) = ⟨row.Sex, y, v⟩ :: load_dataset rows) := by
  refine ⟨?_, ?_, ?_⟩
  · intro rec
    rw [load_dataset, List.mem_filterMap]
    constructor
    · rintro ⟨raw, hraw, hf⟩
      rcases hy : parseYear4 raw.Time with _ | y <;>
        rcases hv : parseNumber raw.Value with _ | v <;>
          rw [hy, hv] at hf <;> simp at hf
      subst hf
      exact ⟨raw, hraw, hy, hv, rfl⟩
    · rintro ⟨raw, hraw, hy, hv, hc⟩
      refine ⟨raw, hraw, ?_⟩
      rw [hy, hv]
      cases rec
      simp_all
  · intro h
    rcases h with h | h
    · rw [load_dataset, List.filterMap_cons, h]
      rfl
    · rcases hy : parseYear4 row.Time with _ | y
      · rw [load_dataset, List.filterMap_cons, hy]
        rfl
      · rw [load_dataset, List.filterMap_cons, hy, h]
        rfl
  · intro y v hy hv
    rw [load_dataset, List.filterMap_cons, hy, hv]
    rfl

/-- Witness for C8: a row whose year token is malformed is dropped. -/
theorem load_dataset_correct_witness :
    parseYear4 (RawRow.mk "20x0" "5" "Males").Time = none ∧
    load_dataset (⟨"20x0", "5", "Males"⟩ :: [⟨"2000", "5.5", "Males"⟩]) =
      load_dataset [⟨"2000", "5.5", "Males"⟩] :=
  ⟨by decide,
   (load_dataset_correct ⟨"20x0", "5", "Males"⟩ [⟨"2000", "5.5", "Males"⟩]).2.1
     (Or.inl (by decide))⟩

/-- Claim C10: the category filter lower-cases the dataset category before
comparing in every rule (matching is case-insensitive on the dataset side,
and the equality rules compare against the lower-cased literals
`"males"`/`"females"`): membership depends only on the lower-cased
category, and a record with category `"MALES"` is returned by expression
`"male"`. -/
theorem filter_gender_lowercases (records : List Record) (g : String) :
    (∀ r : Record, r ∈ filter_gender records g ↔
      r ∈ records ∧
        genderMatches (pyLower r.category) (pyLower (pyStrip g)) = true) ∧
    (⟨"MALES", 2000, 1⟩ : Record) ∈
      filter_gender [⟨"MALES", 2000, 1⟩] "male" := by
  have hmain : ∀ (df : List Record) (gen : String) (r : Record),
      r ∈ filter_gender df gen ↔
        r ∈ df ∧
          genderMatches (pyLower r.category) (pyLower (pyStrip gen)) = true := by
    intro df gen r
    rw [filter_gender, genderMatches]
    split_ifs <;> simp [List.mem_filter]
  refine ⟨hmain records g, ?_⟩
  exact (hmain _ _ _).mpr ⟨List.mem_singleton.mpr rfl, by decide⟩

/-- Claim C5: when a combined category such as `"males and females"` is
present, `filter_gender records "male"` (exact match on `"males"`) is a
strict subset of `filter_gender records "males"` (substring match on
`"males"`). -/
theorem filter_gender_male_strict (records : List Record)
    (h : ∃ r ∈ records, pyLower r.category = "males and females") :
    (∀ r ∈ filter_gender records "male", r ∈ filter_gender records "males") ∧
    ∃ r ∈ filter_gender records "males", r ∉ filter_gender records "male" := by
  have e1 : filter_gender records "male" =
      records.filter (fun r => pyLower r.category == "males") := rfl
  have e2 : filter_gender records "males" =
      records.filter (fun r => strContains (pyLower r.category) "males") := rfl
  constructor
  · intro r hr
    rw [e1, List.mem_filter] at hr
    rw [e2, List.mem_filter]
    refine ⟨hr.1, ?_⟩
    have hcat : pyLower r.category = "males" := by
      have := hr.2
      simpa using this
    rw [hcat]
    decide
  · obtain ⟨r, hrmem, hcat⟩ := h
    refine ⟨r, ?_, ?_⟩
    · rw [e2, List.mem_filter]
      refine ⟨hrmem, ?_⟩
      rw [hcat]
      decide
    · intro hmem
      rw [e1, List.mem_filter] at hmem
      have : pyLower r.category = "males" := by simpa using hmem.2
      rw [hcat] at this
      exact absurd this (by decide)

/-- Witness for C5 at a concrete record set holding `"Males"` and
`"Males and females"`. -/
theorem filter_gender_male_strict_witness :
    (∃ r ∈ [(⟨"Males", 2000, 1⟩ : Record), ⟨"Males and females", 2000, 3⟩],
      pyLower r.category = "males and females") ∧
    ((∀ r ∈ filter_gender
        [(⟨"Males", 2000, 1⟩ : Record), ⟨"Males and females", 2000, 3⟩] "male",
      r ∈ filter_gender
        [(⟨"Males", 2000, 1⟩ : Record), ⟨"Males and females", 2000, 3⟩] "males") ∧
    ∃ r ∈ filter_gender
        [(⟨"Males", 2000, 1⟩ : Record), ⟨"Males and females", 2000, 3⟩] "males",
      r ∉ filter_gender
        [(⟨"Males", 2000, 1⟩ : Record), ⟨"Males and females", 2000, 3⟩] "male") := by
  have hex : ∃ r ∈ [(⟨"Males", 2000, 1⟩ : Record), ⟨"Males and females", 2000, 3⟩],
      pyLower r.category = "males and females" :=
    ⟨⟨"Males and females", 2000, 3⟩,
     List.mem_cons_of_mem _ (List.mem_singleton.mpr rfl), by decide⟩
  exact ⟨hex, filter_gender_male_strict _ hex⟩

/-- The total of a year equals the sum, over all records, of the value when
the year matches and 0 otherwise. -/
theorem sum_filter_year (l : List Record) (y : ℤ) :
    ((l.filter (fun r => r.year == y)).map Record.value).sum =
      (l.map (fun r => if r.year = y then r.value else 0)).sum := by
  induction l with
  | nil => rfl
  | cons a as ih =>
    by_cases ha : a.year = y
    · simp [List.filter_cons, ha, ih]
    · simp [List.filter_cons, ha, ih]

/-- Claim C1: for non-empty input, the aggregated output has strictly
increasing years (hence no duplicates), each output total is the sum of the
value field over exactly the records whose year matches, and no year absent
from the input appears in the output. -/
theorem aggregate_by_year_correct (records : List Record)
    (h : records ≠ []) :
    List.Pairwise (· < ·) ((aggregate_by_year records).map Prod.fst) ∧
    ∀ p ∈ aggregate_by_year records,
      p.2 = (records.map (fun r => if r.year = p.1 then r.value else 0)).sum ∧
      p.1 ∈ records.map Record.year := by
  constructor
  · have hmap : (aggregate_by_year records).map Prod.fst =
        List.insertionSort (· ≤ ·) (records.map Record.year).dedup := by
      rw [aggregate_by_year, List.map_map]
      exact List.map_id _
    rw [hmap]
    refine List.Sorted.lt_of_le ?_ ?_
    · exact List.sorted_insertionSort _ _
    · exact (List.perm_insertionSort _ _).symm.nodup
        (List.nodup_dedup _)
  · intro p hp
    rw [aggregate_by_year, List.mem_map] at hp
    obtain ⟨y, hy, hfp⟩ := hp
    subst hfp
    constructor
    · exact sum_filter_year records y
    · have : y ∈ (records.map Record.year).dedup :=
        (List.perm_insertionSort _ _).mem_iff.mp hy
      exact (List.mem_dedup).mp this

/-- Witness for C1 at a concrete non-empty record set with a duplicated
year. -/
theorem aggregate_by_year_correct_witness :
    ([(⟨"Males", 2001, 5⟩ : Record), ⟨"Males", 2000, 10⟩,
      ⟨"Males", 2001, 7⟩] ≠ []) ∧
    (List.Pairwise (· < ·)
      ((aggregate_by_year
        [(⟨"Males", 2001, 5⟩ : Record), ⟨"Males", 2000, 10⟩,
         ⟨"Males", 2001, 7⟩]).map Prod.fst) ∧
    ∀ p ∈ aggregate_by_year
        [(⟨"Males", 2001, 5⟩ : Record), ⟨"Males", 2000, 10⟩,
         ⟨"Males", 2001, 7⟩],
      p.2 = ([(⟨"Males", 2001, 5⟩ : Record), ⟨"Males", 2000, 10⟩,
         ⟨"Males", 2001, 7⟩].map
          (fun r => if r.year = p.1 then r.value else 0)).sum ∧
      p.1 ∈ [(⟨"Males", 2001, 5⟩ : Record), ⟨"Males", 2000, 10⟩,
         ⟨"Males", 2001, 7⟩].map Record.year) :=
  ⟨List.cons_ne_nil _ _,
   aggregate_by_year_correct _ (List.cons_ne_nil _ _)⟩

/-- Claim C7: the moving-average overlay at index `i` is the mean of the
totals from `max 0 (i-2)` to `i` inclusive (a trailing window of size
`min 3 (i+1)`), and on `[10,20,30,40]` the overlay is `[10,15,20,30]`. -/
theorem rollingMean3_correct (values : List ℚ) (i : ℕ)
    (h : i < (rollingMean3 values).length) :
    (rollingMean3 values)[i] =
      ((values.drop (i - 2)).take (min 3 (i + 1))).sum /
        ((min 3 (i + 1) : ℕ) : ℚ) ∧
    rollingMean3 [10, 20, 30, 40] = [10, 15, 20, 30] := by
  constructor
  · have hlen : (rollingMean3 values).length = values.length := by
      simp [rollingMean3]
    have hi : i < values.length := hlen ▸ h
    simp only [rollingMean3, List.getElem_map, List.getElem_range]
    have hw : (values.take (i + 1)).drop (i - 2) =
        (values.drop (i - 2)).take (min 3 (i + 1)) := by
      rw [List.drop_take]
      congr 1
      omega
    rw [hw]
    have hlen2 : ((values.drop (i - 2)).take (min 3 (i + 1))).length =
        min 3 (i + 1) := by
      rw [List.length_take, List.length_drop]
      omega
    rw [hlen2]
  · norm_num [rollingMean3, List.range_succ]

/-- Witness for C7 at `values = [10,20,30,40]`, `i = 3`. -/
theorem rollingMean3_correct_witness :
    (3 < (rollingMean3 [10, 20, 30, 40]).length) ∧
    ((rollingMean3 [10, 20, 30, 40]).get ⟨3, by decide⟩ =
      (([10, 20, 30, 40].drop (3 - 2)).take (min 3 (3 + 1))).sum /
        ((min 3 (3 + 1) : ℕ) : ℚ) ∧
    rollingMean3 [10, 20, 30, 40] = [10, 15, 20, 30]) :=
  ⟨by decide, rollingMean3_correct [10, 20, 30, 40] 3 (by decide)⟩

/-- Claim C3: on a non-empty series with percent change requested, a zero
first total yields a null value plus a non-empty explanatory note (and no
division-by-zero failure — the embedding is total), and a non-zero first
total yields `(last - first) / |first| * 100`. -/
theorem calculate_statistics_percent_change (dfY : List (ℤ × ℚ))
    (h : dfY ≠ []) :
    ((dfY.map Prod.snd).headD 0 = 0 →
      calculate_statistics dfY ["percent change"] =
        [("Percent Change (%)", StatValue.nullv),
         ("Percent Change Note", StatValue.str pcZeroNote)] ∧
      pcZeroNote ≠ "") ∧
    ((dfY.map Prod.snd).headD 0 ≠ 0 →
      calculate_statistics dfY ["percent change"] =
        [("Percent Change (%)", StatValue.num
          (((dfY.map Prod.snd).getLastD 0 - (dfY.map Prod.snd).headD 0) /
            |(dfY.map Prod.snd).headD 0| * 100))]) := by
  have hne : (dfY.map Prod.snd).isEmpty = false := by
    simp [List.isEmpty_iff, h]
  constructor
  · intro h0
    refine ⟨?_, by decide⟩
    rw [calculate_statistics]
    simp only [List.headD_eq_head?, List.head?_map] at h0
    simp [hne, h0]
  · intro h0
    rw [calculate_statistics]
    simp only [List.headD_eq_head?, List.head?_map] at h0
    simp [hne, h0]

/-- Witness for C3 at a concrete series whose first total is 0. -/
theorem calculate_statistics_percent_change_witness :
    ([((2000:ℤ), (0:ℚ)), ((2001:ℤ), (7:ℚ))] ≠ []) ∧
    ((([((2000:ℤ), (0:ℚ)), ((2001:ℤ), (7:ℚ))].map Prod.snd).headD 0 = 0 →
      calculate_statistics [((2000:ℤ), (0:ℚ)), ((2001:ℤ), (7:ℚ))]
          ["percent change"] =
        [("Percent Change (%)", StatValue.nullv),
         ("Percent Change Note", StatValue.str pcZeroNote)] ∧
      pcZeroNote ≠ "") ∧
    (([((2000:ℤ), (0:ℚ)), ((2001:ℤ), (7:ℚ))].map Prod.snd).headD 0 ≠ 0 →
      calculate_statistics [((2000:ℤ), (0:ℚ)), ((2001:ℤ), (7:ℚ))]
          ["percent change"] =
        [("Percent Change (%)", StatValue.num
          ((([((2000:ℤ), (0:ℚ)), ((2001:ℤ), (7:ℚ))].map Prod.snd).getLastD 0 -
              ([((2000:ℤ), (0:ℚ)), ((2001:ℤ), (7:ℚ))].map Prod.snd).headD 0) /
            |([((2000:ℤ), (0:ℚ)), ((2001:ℤ), (7:ℚ))].map Prod.snd).headD 0| *
            100))])) :=
  ⟨List.cons_ne_nil _ _,
   calculate_statistics_percent_change _ (List.cons_ne_nil _ _)⟩

/-- Claim C9: unrecognized statistic names produce no entry and no error —
the result is unchanged when the requested list is restricted to the
recognized vocabulary — and on a non-empty series a request list with only
unrecognized names yields the empty mapping. -/
theorem calculate_statistics_vocab (dfY : List (ℤ × ℚ))
    (stats : List String) (h : dfY ≠ []) :
    calculate_statistics dfY stats =
      calculate_statistics dfY (stats.filter isRecognized) ∧
    ((∀ s ∈ stats, isRecognized s = false) →
      calculate_statistics dfY stats = []) := by
  have hne : (dfY.map Prod.snd).isEmpty = false := by
    simp [List.isEmpty_iff, h]
  have hmem : ∀ x : String, isRecognized x = true →
      ((x ∈ stats.filter isRecognized) ↔ (x ∈ stats)) := by
    intro x hx
    simp [List.mem_filter, hx]
  constructor
  · rw [calculate_statistics, calculate_statistics]
    simp only [hmem "average" (by decide), hmem "max" (by decide),
      hmem "min" (by decide), hmem "median" (by decide),
      hmem "stddev" (by decide), hmem "percent change" (by decide),
      hmem "trend" (by decide)]
  · intro hall
    have h1 : "average" ∉ stats := fun hm => absurd (hall _ hm) (by decide)
    have h2 : "max" ∉ stats := fun hm => absurd (hall _ hm) (by decide)
    have h3 : "min" ∉ stats := fun hm => absurd (hall _ hm) (by decide)
    have h4 : "median" ∉ stats := fun hm => absurd (hall _ hm) (by decide)
    have h5 : "stddev" ∉ stats := fun hm => absurd (hall _ hm) (by decide)
    have h6 : "percent change" ∉ stats := fun hm =>
      absurd (hall _ hm) (by decide)
    have h7 : "trend" ∉ stats := fun hm => absurd (hall _ hm) (by decide)
    rw [calculate_statistics]
    simp [hne, h1, h2, h3, h4, h5, h6, h7]

/-- Witness for C9 at a concrete non-empty series and an unrecognized
request list. -/
theorem calculate_statistics_vocab_witness :
    ([((2000:ℤ), (1:ℚ))] ≠ []) ∧ (∀ s ∈ ["bogus"], isRecognized s = false) ∧
    (calculate_statistics [((2000:ℤ), (1:ℚ))] ["bogus"] =
      calculate_statistics [((2000:ℤ), (1:ℚ))] (["bogus"].filter isRecognized) ∧
    ((∀ s ∈ ["bogus"], isRecognized s = false) →
      calculate_statistics [((2000:ℤ), (1:ℚ))] ["bogus"] = [])) :=
  ⟨List.cons_ne_nil _ _, by decide,
   calculate_statistics_vocab _ ["bogus"] (List.cons_ne_nil _ _)⟩

/-- Claim C4 (amended): a one-point series with trend requested yields the
textual "not enough points" marker; a series with at least 2 points yields
the closed-form least-squares slope and intercept entries; and on the
collinear series `[(2000,5),(2001,7),(2002,9)]` the slope is 2 and the
intercept is -3995. (On the empty series the engine instead short-circuits
to the whole-request `"Error"` entry — see the counterexample.) -/
theorem calculate_statistics_trend_spec (dfY : List (ℤ × ℚ))
    (h : dfY.length = 1) :
    calculate_statistics dfY ["trend"] =
      [("Trend", StatValue.str trendMsg)] ∧
    (∀ dfY2 : List (ℤ × ℚ), 2 ≤ dfY2.length →
      calculate_statistics dfY2 ["trend"] =
        [("Trend Slope (value per year)", StatValue.num
          (polyfit1 ((dfY2.map Prod.fst).map Int.cast)
            (dfY2.map Prod.snd)).1),
         ("Trend Intercept", StatValue.num
          (polyfit1 ((dfY2.map Prod.fst).map Int.cast)
            (dfY2.map Prod.snd)).2)]) ∧
    calculate_statistics [((2000:ℤ), (5:ℚ)), ((2001:ℤ), (7:ℚ)),
        ((2002:ℤ), (9:ℚ))] ["trend"] =
      [("Trend Slope (value per year)", StatValue.num 2),
       ("Trend Intercept", StatValue.num (-3995))] := by
  refine ⟨?_, ?_, ?_⟩
  · obtain ⟨p, rfl⟩ : ∃ p, dfY = [p] := by
      match dfY, h with
      | [p], _ => exact ⟨p, rfl⟩
    rw [calculate_statistics]
    simp
  · intro dfY2 h2
    have hne : (dfY2.map Prod.snd).isEmpty = false := by
      rcases dfY2 with _ | ⟨a, l⟩
      · simp at h2
      · simp
    rw [calculate_statistics]
    simp [hne, h2]
  · rw [calculate_statistics]
    simp [polyfit1]
    norm_num

/-- Counterexample to C4 as stated: on the empty series (which has fewer
than 2 points) with trend requested, the engine does not emit the
"not enough points" marker — it short-circuits to the whole-request
`"Error"` entry, and no `"Trend"` key appears. -/
theorem calculate_statistics_trend_empty_cex :
    calculate_statistics [] ["trend"] =
      [("Error", StatValue.str noDataMsg)] ∧
    ∀ p ∈ calculate_statistics [] ["trend"], p.1 ≠ "Trend" := by
  refine ⟨rfl, ?_⟩
  intro p hp
  have he : calculate_statistics [] ["trend"] =
      [("Error", StatValue.str noDataMsg)] := rfl
  rw [he] at hp
  have : p = ("Error", StatValue.str noDataMsg) := by simpa using hp
  rw [this]
  decide

/-- Witness for the amended C4 at a concrete one-point series. -/
theorem calculate_statistics_trend_spec_witness :
    ([((2000:ℤ), (1:ℚ))].length = 1) ∧
    (calculate_statistics [((2000:ℤ), (1:ℚ))] ["trend"] =
      [("Trend", StatValue.str trendMsg)] ∧
    (∀ dfY2 : List (ℤ × ℚ), 2 ≤ dfY2.length →
      calculate_statistics dfY2 ["trend"] =
        [("Trend Slope (value per year)", StatValue.num
          (polyfit1 ((dfY2.map Prod.fst).map Int.cast)
            (dfY2.map Prod.snd)).1),
         ("Trend Intercept", StatValue.num
          (polyfit1 ((dfY2.map Prod.fst).map Int.cast)
            (dfY2.map Prod.snd)).2)]) ∧
    calculate_statistics [((2000:ℤ), (5:ℚ)), ((2001:ℤ), (7:ℚ)),
        ((2002:ℤ), (9:ℚ))] ["trend"] =
      [("Trend Slope (value per year)", StatValue.num 2),
       ("Trend Intercept", StatValue.num (-3995))]) :=
  ⟨rfl, calculate_statistics_trend_spec [((2000:ℤ), (1:ℚ))] rfl⟩

end App
